import Mathlib

/-
Shallow embedding of gsl::unique_error from src/include/unique_error.h.

unique_error<Error> stores a wrapped error value together with a mutable
Disposition and enforces that a stored value is checked before it is
overwritten, moved-from or destroyed; a violation routes to the fatal
fail_fast path.  Fallible operations are embedded as functions returning
Except (unique_error E × String) α: the error case is the fatal path, and
it carries the state the object had when the assertion fired (relevant in
the catchable / testing configuration) together with the diagnostic
message.
-/

/-- Disposition enumeration from src/include/unique_error.h lines 91-105
(details::Disposition::type), including the Invalid and End range markers. -/
inductive Disposition where
  | Invalid
  | Initiated
  | Defaulted
  | Released
  | Checked
  | Unchecked
  | End
deriving DecidableEq, Repr

/-- Traits record standing for a C++ error_traits<E> instance: the pair of
static members initiate() and ok(e) that unique_error<E> consumes
(src/include/unique_error.h lines 108-114 and the specializations). -/
structure error_traits (E : Type) where
  initiate : E
  ok : E → Bool

/-- Primary template error_traits<T> (src/include/unique_error.h lines
108-114): initiate() returns the value-initialized T\x7b\x7d (here defaultE) and
ok(e) returns !!e, the double negation of e's truthiness (here toBool). -/
def error_traits_primary (E : Type) (defaultE : E) (toBool : E → Bool) : error_traits E :=
  { initiate := defaultE, ok := fun e => !(!(toBool e)) }

/-- Model of std::error_condition: a category and an integer value;
default construction gives value 0 in the generic category, and the
contextual bool conversion is value() != 0. -/
structure error_condition where
  cat : Nat
  val : Int
deriving DecidableEq, Repr

/-- Specialization error_traits<std::error_condition>
(src/include/unique_error.h lines 333-347): initiate() is the
default-constructed condition and ok(ge) is !ge, i.e. ge.value() == 0. -/
def error_traits_error_condition : error_traits error_condition :=
  { initiate := { cat := 0, val := 0 }, ok := fun ge => decide (ge.val = 0) }

/-- Model of std::error_code: a category and an integer value; default
construction gives value 0 in the system category, and the contextual bool
conversion is value() != 0. -/
structure error_code where
  cat : Nat
  val : Int
deriving DecidableEq, Repr

/-- Specialization error_traits<std::error_code>
(src/include/unique_error.h lines 349-363): initiate() is the
default-constructed code and ok(se) is !se, i.e. se.value() == 0. -/
def error_traits_error_code : error_traits error_code :=
  { initiate := { cat := 0, val := 0 }, ok := fun se => decide (se.val = 0) }

/-- Modelled from the spec: fail_fast.h is included by
src/include/unique_error.h but is not under src/.  Per §6 the
fatal-termination primitive has the shape assert_or_terminate(condition,
message): when condition is false it terminates the process unrecoverably,
or, in the testing configuration, raises a catchable failure carrying the
message; when condition is true it does nothing.  Both configurations are
embedded as Except: Except.error marks the fatal path. -/
def fail_fast_assert (cond : Bool) (msg : String) : Except String Unit :=
  if cond then Except.ok () else Except.error msg

/-- State of a unique_error<E> object: the wrapped value and the mutable
disposition (src/include/unique_error.h lines 267-269). -/
structure unique_error (E : Type) where
  value : E
  disposition : Disposition
deriving DecidableEq, Repr

/-- Default constructor unique_error() (src/include/unique_error.h lines
160-164): value = traits::initiate(), disposition = Defaulted. -/
def unique_error.default_construct {E : Type} (traits : error_traits E) : unique_error E :=
  { value := traits.initiate, disposition := Disposition.Defaulted }

/-- Converting constructor unique_error(const type&) / unique_error(type&&)
(src/include/unique_error.h lines 166-176): value = other, disposition =
Initiated. -/
def unique_error.from_raw {E : Type} (raw : E) : unique_error E :=
  { value := raw, disposition := Disposition.Initiated }

/-- reset(type raw) (src/include/unique_error.h lines 222-230):
fail_fast_assert(disposition != Unchecked, "error was not checked"); then
value = raw; disposition = Unchecked; returns *this.  On the fatal path the
statements after the assertion do not execute, so the error carries the
unchanged state. -/
def unique_error.reset_raw {E : Type} (g : unique_error E) (raw : E) :
    Except (unique_error E × String) (unique_error E) :=
  match fail_fast_assert (decide (g.disposition ≠ Disposition.Unchecked)) "error was not checked" with
  | Except.error m => Except.error (g, m)
  | Except.ok _ => Except.ok { value := raw, disposition := Disposition.Unchecked }

/-- reset() (src/include/unique_error.h lines 215-220): calls
reset(traits::initiate()), then sets disposition = Defaulted and returns
*this; if the inner reset hit the fatal path, the overwrite of disposition
does not execute. -/
def unique_error.reset0 {E : Type} (traits : error_traits E) (g : unique_error E) :
    Except (unique_error E × String) (unique_error E) :=
  match unique_error.reset_raw g traits.initiate with
  | Except.error e => Except.error e
  | Except.ok g1 => Except.ok { g1 with disposition := Disposition.Defaulted }

/-- Destructor ~unique_error() (src/include/unique_error.h lines 155-158):
body is reset(); the returned state is discarded because the object's
lifetime ends. -/
def unique_error.destruct {E : Type} (traits : error_traits E) (g : unique_error E) :
    Except (unique_error E × String) Unit :=
  match unique_error.reset0 traits g with
  | Except.error e => Except.error e
  | Except.ok _ => Except.ok ()

/-- release() (src/include/unique_error.h lines 232-238): disposition =
Released; result = value; reset(); return result.  Returns the captured
value together with the state left behind. -/
def unique_error.release {E : Type} (traits : error_traits E) (g : unique_error E) :
    Except (unique_error E × String) (E × unique_error E) :=
  let g1 : unique_error E := { g with disposition := Disposition.Released }
  let result : E := g1.value
  match unique_error.reset0 traits g1 with
  | Except.error e => Except.error e
  | Except.ok g2 => Except.ok (result, g2)

/-- Move constructor unique_error(unique_error&&) (src/include/unique_error.h
lines 178-182): value = other.release(), disposition = Unchecked.  Returns
the constructed object paired with the state other is left in. -/
def unique_error.move_construct {E : Type} (traits : error_traits E) (other : unique_error E) :
    Except (unique_error E × String) (unique_error E × unique_error E) :=
  match unique_error.release traits other with
  | Except.error e => Except.error e
  | Except.ok (v, other1) =>
      Except.ok ({ value := v, disposition := Disposition.Unchecked }, other1)

/-- Copy constructor unique_error(const unique_error&)
(src/include/unique_error.h lines 184-188): value = other.value,
disposition = Unchecked; other is not modified. -/
def unique_error.copy_construct {E : Type} (other : unique_error E) : unique_error E :=
  { value := other.value, disposition := Disposition.Unchecked }

/-- Move assignment operator=(unique_error&&) (src/include/unique_error.h
lines 197-202): value = other.release(); disposition = Unchecked; returns
*this.  The destination dest is never read: its outgoing value is
discarded without any check.  Returns the new destination state paired
with the state other is left in. -/
def unique_error.move_assign {E : Type} (traits : error_traits E)
    (dest other : unique_error E) :
    Except (unique_error E × String) (unique_error E × unique_error E) :=
  match unique_error.release traits other with
  | Except.error e => Except.error e
  | Except.ok (v, other1) =>
      Except.ok ({ value := v, disposition := Disposition.Unchecked }, other1)

/-- Copy assignment operator=(const unique_error&)
(src/include/unique_error.h lines 203-208): value = other.value;
disposition = Unchecked; returns *this.  The destination dest is never
read: its outgoing value is discarded without any check. -/
def unique_error.copy_assign {E : Type} (dest other : unique_error E) : unique_error E :=
  { value := other.value, disposition := Disposition.Unchecked }

/-- get() (src/include/unique_error.h lines 240-243): returns value,
no disposition change. -/
def unique_error.get {E : Type} (g : unique_error E) : E :=
  g.value

/-- try_ok() (src/include/unique_error.h lines 245-248): returns
traits::ok(value), no disposition change. -/
def unique_error.try_ok {E : Type} (traits : error_traits E) (g : unique_error E) : Bool :=
  traits.ok g.value

/-- ok() (src/include/unique_error.h lines 250-254): disposition = Checked
(through the mutable member, even on a const object); return try_ok().
Returns the boolean together with the updated state. -/
def unique_error.ok {E : Type} (traits : error_traits E) (g : unique_error E) :
    Bool × unique_error E :=
  (unique_error.try_ok traits g, { g with disposition := Disposition.Checked })

/-- explicit operator bool() (src/include/unique_error.h lines 210-213):
returns !ok(), with ok()'s side effect on the disposition. -/
def unique_error.operator_bool {E : Type} (traits : error_traits E) (g : unique_error E) :
    Bool × unique_error E :=
  let r := unique_error.ok traits g
  (!r.1, r.2)

/-- operator==(const unique_error<Error>&, const unique_error<Error>&)
(src/include/unique_error.h lines 284-288): lhs.value == rhs.value, with
the raw equality eqE standing for Error's operator==. -/
def ue_eq {E : Type} (eqE : E → E → Bool) (lhs rhs : unique_error E) : Bool :=
  eqE lhs.value rhs.value

/-- operator!=(const unique_error<Error>&, const unique_error<Error>&)
(src/include/unique_error.h lines 290-294): !(lhs == rhs). -/
def ue_ne {E : Type} (eqE : E → E → Bool) (lhs rhs : unique_error E) : Bool :=
  !(ue_eq eqE lhs rhs)

/-- operator<(const unique_error<Error>&, const unique_error<Error>&)
(src/include/unique_error.h lines 278-282): lhs.value < rhs.value, with
the raw ordering ltE standing for Error's operator<. -/
def ue_lt {E : Type} (ltE : E → E → Bool) (lhs rhs : unique_error E) : Bool :=
  ltE lhs.value rhs.value

/-- C1: reset(raw) hits the fatal path exactly when the current disposition
is Unchecked; otherwise it sets the value to raw and the disposition to
Unchecked and yields the updated instance (the return for chaining).  The
no-argument reset() has the same guard and, when it does not trigger, sets
the value to traits.initiate and the disposition to Defaulted. -/
theorem uerr_reset_guard {E : Type} (traits : error_traits E) (g : unique_error E) (raw : E) :
    unique_error.reset_raw g raw =
      (if g.disposition = Disposition.Unchecked
        then Except.error (g, "error was not checked")
        else Except.ok { value := raw, disposition := Disposition.Unchecked }) ∧
    unique_error.reset0 traits g =
      (if g.disposition = Disposition.Unchecked
        then Except.error (g, "error was not checked")
        else Except.ok { value := traits.initiate, disposition := Disposition.Defaulted }) := by
  obtain ⟨v, d⟩ := g
  cases d <;> exact ⟨rfl, rfl⟩

/-- C2: the destructor is equivalent to reset(): it hits the fatal path
exactly when the disposition is Unchecked, and in every other disposition
it succeeds without triggering. -/
theorem uerr_destructor_guard {E : Type} (traits : error_traits E) (g : unique_error E) :
    unique_error.destruct traits g =
      (if g.disposition = Disposition.Unchecked
        then Except.error (g, "error was not checked")
        else Except.ok ()) ∧
    unique_error.destruct traits g = Except.map (fun _ => ()) (unique_error.reset0 traits g) := by
  obtain ⟨v, d⟩ := g
  cases d <;> exact ⟨rfl, rfl⟩

/-- C3: release() never hits the fatal path: from any disposition it
returns the value held immediately before the call and leaves the instance
holding traits.initiate with disposition Defaulted, after which destruction
and both forms of reset succeed without triggering. -/
theorem uerr_release_total {E : Type} (traits : error_traits E) (g : unique_error E) (raw : E) :
    unique_error.release traits g =
      Except.ok (g.value, { value := traits.initiate, disposition := Disposition.Defaulted }) ∧
    unique_error.destruct traits
      { value := traits.initiate, disposition := Disposition.Defaulted } = Except.ok () ∧
    unique_error.reset_raw
      ({ value := traits.initiate, disposition := Disposition.Defaulted } : unique_error E) raw =
      Except.ok { value := raw, disposition := Disposition.Unchecked } ∧
    unique_error.reset0 traits
      { value := traits.initiate, disposition := Disposition.Defaulted } =
      Except.ok { value := traits.initiate, disposition := Disposition.Defaulted } := by
  obtain ⟨v, d⟩ := g
  exact ⟨rfl, rfl, rfl, rfl⟩

/-- C4: ok() sets the disposition to Checked, leaves the value unchanged
and returns traits.ok of the current value; the explicit bool conversion
returns the negation of ok() with the same side effect, so destroying the
instance right after the truthiness test never hits the fatal path. -/
theorem uerr_ok_checks {E : Type} (traits : error_traits E) (g : unique_error E) :
    unique_error.ok traits g =
      (traits.ok g.value, { value := g.value, disposition := Disposition.Checked }) ∧
    unique_error.operator_bool traits g =
      (!(traits.ok g.value), { value := g.value, disposition := Disposition.Checked }) ∧
    unique_error.destruct traits (unique_error.ok traits g).2 = Except.ok () ∧
    unique_error.destruct traits (unique_error.operator_bool traits g).2 = Except.ok () := by
  obtain ⟨v, d⟩ := g
  exact ⟨rfl, rfl, rfl, rfl⟩

/-- C5: ownership transfer (move construction or move assignment) never
hits the fatal path: the destination receives the source's prior value
with disposition Unchecked regardless of the source's disposition, and the
source is left holding traits.initiate with disposition Defaulted. -/
theorem uerr_move_transfer {E : Type} (traits : error_traits E) (a b : unique_error E) :
    unique_error.move_construct traits a =
      Except.ok ({ value := a.value, disposition := Disposition.Unchecked },
                 { value := traits.initiate, disposition := Disposition.Defaulted }) ∧
    unique_error.move_assign traits b a =
      Except.ok ({ value := a.value, disposition := Disposition.Unchecked },
                 { value := traits.initiate, disposition := Disposition.Defaulted }) := by
  obtain ⟨v, d⟩ := a
  exact ⟨rfl, rfl⟩

/-- C6: when the destination's disposition is Unchecked, assigning another
guarded value to it (copy or move assignment) does not hit the fatal path:
the destination's outgoing value is discarded silently, without the
overwrite-safety check that reset(raw) would enforce on the same state,
and the destination's disposition is Unchecked afterwards. -/
theorem uerr_assign_bypasses_guard {E : Type} (traits : error_traits E)
    (g other : unique_error E) (h : g.disposition = Disposition.Unchecked) :
    unique_error.reset_raw g other.value = Except.error (g, "error was not checked") ∧
    unique_error.copy_assign g other =
      { value := other.value, disposition := Disposition.Unchecked } ∧
    unique_error.move_assign traits g other =
      Except.ok ({ value := other.value, disposition := Disposition.Unchecked },
                 { value := traits.initiate, disposition := Disposition.Defaulted }) := by
  obtain ⟨v, d⟩ := g
  obtain ⟨w, d2⟩ := other
  simp only [unique_error.disposition] at h
  subst h
  exact ⟨rfl, rfl, rfl⟩

/-- C6 witness: a concrete Unchecked destination over std::error_condition
is assigned to without triggering, while reset(raw) on the same state
triggers. -/
theorem uerr_assign_bypasses_guard_w :
    unique_error.reset_raw
      ({ value := { cat := 0, val := 7 }, disposition := Disposition.Unchecked } :
        unique_error error_condition) { cat := 0, val := 3 } =
      Except.error
        ({ value := { cat := 0, val := 7 }, disposition := Disposition.Unchecked },
         "error was not checked") ∧
    unique_error.copy_assign
      ({ value := { cat := 0, val := 7 }, disposition := Disposition.Unchecked } :
        unique_error error_condition)
      { value := { cat := 0, val := 3 }, disposition := Disposition.Initiated } =
      { value := { cat := 0, val := 3 }, disposition := Disposition.Unchecked } ∧
    unique_error.move_assign error_traits_error_condition
      { value := { cat := 0, val := 7 }, disposition := Disposition.Unchecked }
      { value := { cat := 0, val := 3 }, disposition := Disposition.Initiated } =
      Except.ok ({ value := { cat := 0, val := 3 }, disposition := Disposition.Unchecked },
                 { value := { cat := 0, val := 0 }, disposition := Disposition.Defaulted }) :=
  uerr_assign_bypasses_guard error_traits_error_condition
    { value := { cat := 0, val := 7 }, disposition := Disposition.Unchecked }
    { value := { cat := 0, val := 3 }, disposition := Disposition.Initiated } rfl

/-- C7 counterexample: error_traits<bool> is served by the generic primary
template (bool is not among the disabled integral specializations), and for
it ok(initiate()) = !!false = false, refuting the claim that
ok(initiate()) == true holds for the generic primary template. -/
theorem uerr_primary_ok_initiate_cex :
    (error_traits_primary Bool false (fun b => b)).ok
      ((error_traits_primary Bool false (fun b => b)).initiate) = false := by
  decide

/-- C7 amended: the built-in specializations for std::error_condition and
std::error_code satisfy ok(initiate()) = true and a default-constructed
guarded value over them satisfies try_ok() = true; in general a
default-constructed guarded value satisfies try_ok() = traits.ok
traits.initiate, and for the generic primary template ok(initiate())
equals the truthiness of the value-initialized default, which is false
whenever that default is falsy. -/
theorem uerr_traits_ok_initiate :
    error_traits_error_condition.ok error_traits_error_condition.initiate = true ∧
    error_traits_error_code.ok error_traits_error_code.initiate = true ∧
    unique_error.try_ok error_traits_error_condition
      (unique_error.default_construct error_traits_error_condition) = true ∧
    unique_error.try_ok error_traits_error_code
      (unique_error.default_construct error_traits_error_code) = true ∧
    (∀ (E : Type) (traits : error_traits E),
      unique_error.try_ok traits (unique_error.default_construct traits) =
        traits.ok traits.initiate) ∧
    (∀ (E : Type) (defaultE : E) (toBool : E → Bool),
      (error_traits_primary E defaultE toBool).ok
        ((error_traits_primary E defaultE toBool).initiate) = toBool defaultE) := by
  refine ⟨rfl, rfl, rfl, rfl, fun E traits => rfl, fun E defaultE toBool => ?_⟩
  simp [error_traits_primary]

/-- C8: the comparisons of two guarded values read only the value fields
and leave both operands untouched: after a successful reset(raw) the
result state g1 is Unchecked, the comparisons against any rhs are pure
functions of the value fields, and a subsequent reset of either form on g1
still hits the fatal path — comparison never discharges the checking
obligation. -/
theorem uerr_compare_frame {E : Type} (traits : error_traits E) (eqE ltE : E → E → Bool)
    (g g1 rhs : unique_error E) (raw raw2 : E)
    (h : unique_error.reset_raw g raw = Except.ok g1) :
    ue_eq eqE g1 rhs = eqE g1.value rhs.value ∧
    ue_ne eqE g1 rhs = !(eqE g1.value rhs.value) ∧
    ue_lt ltE g1 rhs = ltE g1.value rhs.value ∧
    ue_eq eqE rhs g1 = eqE rhs.value g1.value ∧
    ue_lt ltE rhs g1 = ltE rhs.value g1.value ∧
    g1.disposition = Disposition.Unchecked ∧
    unique_error.reset_raw g1 raw2 = Except.error (g1, "error was not checked") ∧
    unique_error.reset0 traits g1 = Except.error (g1, "error was not checked") := by
  obtain ⟨v, d⟩ := g
  cases d
  all_goals first
  | exact Except.noConfusion h
  | (obtain rfl := Except.ok.inj h
     exact ⟨rfl, rfl, rfl, rfl, rfl, rfl, rfl, rfl⟩)

/-- C8 witness: a concrete run over std::error_condition: reset(raw)
succeeds from Defaulted, the comparisons compute from the value fields,
and both reset forms on the compared-but-unchecked state trigger. -/
theorem uerr_compare_frame_w :
    ue_eq (fun a b => decide (a = b))
      ({ value := { cat := 0, val := 3 }, disposition := Disposition.Unchecked } :
        unique_error error_condition)
      { value := { cat := 0, val := 3 }, disposition := Disposition.Defaulted } =
      decide (({ cat := 0, val := 3 } : error_condition) = { cat := 0, val := 3 }) ∧
    ue_ne (fun a b => decide (a = b))
      ({ value := { cat := 0, val := 3 }, disposition := Disposition.Unchecked } :
        unique_error error_condition)
      { value := { cat := 0, val := 3 }, disposition := Disposition.Defaulted } =
      !(decide (({ cat := 0, val := 3 } : error_condition) = { cat := 0, val := 3 })) ∧
    ue_lt (fun a b => decide (a.val < b.val))
      ({ value := { cat := 0, val := 3 }, disposition := Disposition.Unchecked } :
        unique_error error_condition)
      { value := { cat := 0, val := 3 }, disposition := Disposition.Defaulted } =
      decide ((3 : Int) < 3) ∧
    ue_eq (fun a b => decide (a = b))
      ({ value := { cat := 0, val := 3 }, disposition := Disposition.Defaulted } :
        unique_error error_condition)
      { value := { cat := 0, val := 3 }, disposition := Disposition.Unchecked } =
      decide (({ cat := 0, val := 3 } : error_condition) = { cat := 0, val := 3 }) ∧
    ue_lt (fun a b => decide (a.val < b.val))
      ({ value := { cat := 0, val := 3 }, disposition := Disposition.Defaulted } :
        unique_error error_condition)
      { value := { cat := 0, val := 3 }, disposition := Disposition.Unchecked } =
      decide ((3 : Int) < 3) ∧
    ({ value := { cat := 0, val := 3 }, disposition := Disposition.Unchecked } :
        unique_error error_condition).disposition = Disposition.Unchecked ∧
    unique_error.reset_raw
      ({ value := { cat := 0, val := 3 }, disposition := Disposition.Unchecked } :
        unique_error error_condition) { cat := 0, val := 5 } =
      Except.error
        ({ value := { cat := 0, val := 3 }, disposition := Disposition.Unchecked },
         "error was not checked") ∧
    unique_error.reset0 error_traits_error_condition
      { value := { cat := 0, val := 3 }, disposition := Disposition.Unchecked } =
      Except.error
        ({ value := { cat := 0, val := 3 }, disposition := Disposition.Unchecked },
         "error was not checked") :=
  uerr_compare_frame error_traits_error_condition
    (fun a b => decide (a = b)) (fun a b => decide (a.val < b.val))
    { value := { cat := 0, val := 0 }, disposition := Disposition.Defaulted }
    { value := { cat := 0, val := 3 }, disposition := Disposition.Unchecked }
    { value := { cat := 0, val := 3 }, disposition := Disposition.Defaulted }
    { cat := 0, val := 3 } { cat := 0, val := 5 } rfl

/-- C10: in the catchable (testing) configuration, a reset of either form
invoked on an Unchecked guarded value raises the failure before any
mutation: the failure carries the value and disposition exactly as they
were before the call. -/
theorem uerr_failed_reset_preserves {E : Type} (traits : error_traits E)
    (g : unique_error E) (raw : E) (h : g.disposition = Disposition.Unchecked) :
    unique_error.reset_raw g raw = Except.error (g, "error was not checked") ∧
    unique_error.reset0 traits g = Except.error (g, "error was not checked") := by
  obtain ⟨v, d⟩ := g
  simp only [unique_error.disposition] at h
  subst h
  exact ⟨rfl, rfl⟩

/-- C10 witness: a concrete Unchecked guarded value over std::error_code:
both reset forms fail and the failure carries the unchanged state. -/
theorem uerr_failed_reset_preserves_w :
    unique_error.reset_raw
      ({ value := { cat := 1, val := 11 }, disposition := Disposition.Unchecked } :
        unique_error error_code) { cat := 1, val := 2 } =
      Except.error
        ({ value := { cat := 1, val := 11 }, disposition := Disposition.Unchecked },
         "error was not checked") ∧
    unique_error.reset0 error_traits_error_code
      { value := { cat := 1, val := 11 }, disposition := Disposition.Unchecked } =
      Except.error
        ({ value := { cat := 1, val := 11 }, disposition := Disposition.Unchecked },
         "error was not checked") :=
  uerr_failed_reset_preserves error_traits_error_code
    { value := { cat := 1, val := 11 }, disposition := Disposition.Unchecked }
    { cat := 1, val := 2 } rfl
